import Mathlib

/-!
Verification development for the Spiritual Biology ("Mind Engine") subsystem
of the openclaw repository.

The definitions below are a shallow embedding of the TypeScript sources:
  - src/mind/stress-detection.ts  (stress regexes, cosine similarity,
    semantic detection, identity/prompt builder)
  - src/mind/store.ts             (MindStore: logs, actions, learnings,
    dreams, rejected learnings; decay/activation)
  - the mind tools module          (sanitizeDreamPrompt and its
    INJECTION_PATTERNS)

Conventions of the embedding:
  - JS strings are modelled as Lean `String` / `List Char` (all inputs of
    interest are comprised of Unicode scalar values, so JS UTF-16 lengths
    coincide with `List Char` lengths).
  - SQLite REAL columns are modelled as `ℚ` where exact decimal arithmetic
    is involved (relevance scores: 0.95 / 0.1 / 0.15 are exact decimals);
    `Math.sqrt` based code (cosine similarity) is modelled over `ℝ`.
  - `Date.now()` is passed explicitly as an integer millisecond timestamp.
  - The fallible storage layer (node:sqlite, which throws on disk faults)
    is modelled with `Except`: a `fail` flag says whether the underlying
    prepared-statement execution faults during the call.
-/

-- ══════════════════════════════════════════════════════════════════════
-- JS character classes (as used by the regexes in the source)
-- ══════════════════════════════════════════════════════════════════════

/-- JS `\w` character class: `[A-Za-z0-9_]`. -/
def isWordChar (c : Char) : Bool :=
  (('a' ≤ c && c ≤ 'z') || ('A' ≤ c && c ≤ 'Z') || ('0' ≤ c && c ≤ '9') || c = '_')

/-- JS `\s` character class (whitespace, incl. the Unicode space set). -/
def isJsSpace (c : Char) : Bool :=
  let n := c.toNat
  (n = 32 || n = 9 || n = 10 || n = 11 || n = 12 || n = 13 ||
   n = 0xa0 || n = 0x1680 || (0x2000 ≤ n && n ≤ 0x200a) ||
   n = 0x2028 || n = 0x2029 || n = 0x202f || n = 0x205f || n = 0x3000 || n = 0xfeff)

/-- JS line terminators, which `.` (without the `s` flag) does not match. -/
def isLineTerm (c : Char) : Bool :=
  let n := c.toNat
  (n = 10 || n = 13 || n = 0x2028 || n = 0x2029)

/-- The apostrophe character (U+0027), written numerically. -/
def aposChar : Char := Char.ofNat 39

-- ══════════════════════════════════════════════════════════════════════
-- A small regex core for the fixed STRESS_PATTERNS of stress-detection.ts
-- (these patterns use only literals, one-char-or-more classes, optional
-- groups and alternation; no anchors and no word boundaries)
-- ══════════════════════════════════════════════════════════════════════

/-- Regular-expression fragments used by the stress patterns. -/
inductive RE where
  | lit (w : List Char)            -- case-insensitive literal (stored lowercase)
  | cls1 (f : Char → Bool)         -- one or more characters of a class
  | opt (r : RE)                   -- `(...)?`
  | alt (r₁ r₂ : RE)               -- `(...|...)`
  | seq (r₁ r₂ : RE)

/-- Case-insensitive literal matcher: consumes `w` (given lowercase) off the
front of `s`, returning the remainder. -/
def litMatch : List Char → List Char → Option (List Char)
  | [], s => some s
  | _ :: _, [] => none
  | p :: ps, c :: cs => if c.toLower = p then litMatch ps cs else none

/-- All remainders after consuming one-or-more class characters. -/
def cls1Matches (f : Char → Bool) : List Char → List (List Char)
  | [] => []
  | c :: cs => if f c then cs :: cls1Matches f cs else []

/-- All remainders of matching `r` against a prefix of `s`. -/
def RE.matches : RE → List Char → List (List Char)
  | .lit w, s => match litMatch w s with | some r => [r] | none => []
  | .cls1 f, s => cls1Matches f s
  | .opt r, s => s :: r.matches s
  | .alt r₁ r₂, s => r₁.matches s ++ r₂.matches s
  | .seq r₁ r₂, s => (r₁.matches s).flatMap r₂.matches

/-- Helper: a case-insensitive literal from a string. -/
def reLit (w : String) : RE := .lit w.toList

/-- Helper: sequence of fragments. -/
def reCat (rs : List RE) : RE := rs.foldr .seq (reLit "")

/-- Helper: alternation over a list of fragments (never-matching default). -/
def reOneOf (rs : List RE) : RE := rs.foldr .alt (.cls1 fun _ => false)

/-- `[,\s]` class of the correction patterns. -/
def isCommaOrSpace (c : Char) : Bool := c = ',' || isJsSpace c

/-- Does `r` match starting at some position of `s` (JS `RegExp.test`)? -/
def reTest (r : RE) (s : List Char) : Bool :=
  s.tails.any fun t => !(r.matches t).isEmpty

-- The sixteen STRESS_PATTERNS of stress-detection.ts, in source order.

/-- Pattern `/no[,\s]+(that'?s?\s+)?(wrong|incorrect|not what i meant)/i`. -/
def stressPat1 : RE :=
  reCat [reLit "no", .cls1 isCommaOrSpace,
    .opt (reCat [reLit "that", .opt (.lit [aposChar]), .opt (reLit "s"), .cls1 isJsSpace]),
    reOneOf [reLit "wrong", reLit "incorrect", reLit "not what i meant"]]

/-- Pattern `/actually[,\s]+/i`. -/
def stressPat2 : RE := reCat [reLit "actually", .cls1 isCommaOrSpace]

/-- Pattern `/i (already )?told you/i`. -/
def stressPat3 : RE := reCat [reLit "i ", .opt (reLit "already "), reLit "told you"]

/-- Pattern `/you'?re not listening/i`. -/
def stressPat4 : RE := reCat [reLit "you", .opt (.lit [aposChar]), reLit "re not listening"]

/-- Pattern `/that'?s not what i (asked|said|meant)/i`. -/
def stressPat5 : RE :=
  reCat [reLit "that", .opt (.lit [aposChar]), reLit "s not what i ",
    reOneOf [reLit "asked", reLit "said", reLit "meant"]]

/-- Pattern `/why (did you|would you)/i`. -/
def stressPat6 : RE := reCat [reLit "why ", reOneOf [reLit "did you", reLit "would you"]]

/-- Pattern `/try again/i`. -/
def stressPat7 : RE := reLit "try again"

/-- Pattern `/you keep (making|doing)/i`. -/
def stressPat8 : RE := reCat [reLit "you keep ", reOneOf [reLit "making", reLit "doing"]]

/-- Pattern `/this is (wrong|broken|not right)/i`. -/
def stressPat9 : RE :=
  reCat [reLit "this is ", reOneOf [reLit "wrong", reLit "broken", reLit "not right"]]

/-- Pattern `/can you just/i`. -/
def stressPat10 : RE := reLit "can you just"

/-- Pattern `/no[,\s]+(eso\s+)?(no es|est[áa] mal)/i`. -/
def stressPat11 : RE :=
  reCat [reLit "no", .cls1 isCommaOrSpace, .opt (reCat [reLit "eso", .cls1 isJsSpace]),
    reOneOf [reLit "no es", reCat [reLit "est", reOneOf [reLit "á", reLit "a"], reLit " mal"]]]

/-- Pattern `/ya te (dije|lo dije)/i`. -/
def stressPat12 : RE := reCat [reLit "ya te ", reOneOf [reLit "dije", reLit "lo dije"]]

/-- Pattern `/no me est[áa]s (escuchando|entendiendo)/i`. -/
def stressPat13 : RE :=
  reCat [reLit "no me est", reOneOf [reLit "á", reLit "a"], reLit "s ",
    reOneOf [reLit "escuchando", reLit "entendiendo"]]

/-- Pattern `/eso no es lo que (ped[ií]|dije|quise)/i`. -/
def stressPat14 : RE :=
  reCat [reLit "eso no es lo que ",
    reOneOf [reCat [reLit "ped", reOneOf [reLit "i", reLit "í"]], reLit "dije", reLit "quise"]]

/-- Pattern `/int[ée]ntalo de nuevo/i`. -/
def stressPat15 : RE :=
  reCat [reLit "int", reOneOf [reLit "é", reLit "e"], reLit "ntalo de nuevo"]

/-- Pattern `/por qu[ée] (hiciste|har[ií]as)/i`. -/
def stressPat16 : RE :=
  reCat [reLit "por qu", reOneOf [reLit "é", reLit "e"], reLit " ",
    reOneOf [reLit "hiciste", reCat [reLit "har", reOneOf [reLit "i", reLit "í"], reLit "as"]]]

/-- `STRESS_PATTERNS` of stress-detection.ts, in source order. -/
def STRESS_PATTERNS : List RE :=
  [stressPat1, stressPat2, stressPat3, stressPat4, stressPat5, stressPat6, stressPat7,
   stressPat8, stressPat9, stressPat10, stressPat11, stressPat12, stressPat13,
   stressPat14, stressPat15, stressPat16]

/-- `detectStressRegex` of stress-detection.ts:
`STRESS_PATTERNS.some((pattern) => pattern.test(text))`. -/
def detectStressRegex (text : String) : Bool :=
  STRESS_PATTERNS.any fun pattern => reTest pattern text.toList

-- ══════════════════════════════════════════════════════════════════════
-- sanitizeDreamPrompt (mind tools module): INJECTION_PATTERNS and the
-- sequential global replace.  These patterns use `\b` word boundaries and
-- a lazy `.*?`, so they are modelled as dedicated matchers.  A matcher
-- receives the character preceding the current position (for `\b`) and the
-- remaining text, and returns the remainder after a match, if any.
-- ══════════════════════════════════════════════════════════════════════

/-- A matcher for one injection pattern: previous character (none at the
start of the string) and remaining text, to remainder after the match. -/
def Matcher := Option Char → List Char → Option (List Char)

/-- `\b` holds before the current position iff there is no preceding word
character (all patterns start with a word character). -/
def boundaryBefore : Option Char → Bool
  | none => true
  | some c => !isWordChar c

/-- Case-insensitive literal from a `String` (remainder-returning). -/
def litCI (w : String) (s : List Char) : Option (List Char) := litMatch w.toList s

/-- First literal of a list that matches (regex alternation of literals
whose alternatives are distinguished by their first character). -/
def altLits (ws : List String) (s : List Char) : Option (List Char) :=
  match ws with
  | [] => none
  | w :: rest => (litCI w s).orElse fun _ => altLits rest s

/-- `\s+` (greedy; all patterns follow it with a non-space character). -/
def ws1 (s : List Char) : Option (List Char) :=
  match s with
  | [] => none
  | c :: cs => if isJsSpace c then some (cs.dropWhile isJsSpace) else none

/-- `\s*` (greedy). -/
def ws0 (s : List Char) : List Char := s.dropWhile isJsSpace

/-- A single expected character. -/
def chr (c : Char) (s : List Char) : Option (List Char) :=
  match s with
  | [] => none
  | c' :: cs => if c' = c then some cs else none

/-- Pattern 1:
`/\b(ignore|disregard|forget)\s+(all\s+)?(previous|prior|above)\s+(instructions?|prompts?|rules?)/gi`. -/
def matchInj1 : Matcher := fun prev s =>
  if boundaryBefore prev then
    (altLits ["ignore", "disregard", "forget"] s).bind fun s₁ =>
    (ws1 s₁).bind fun s₂ =>
    let tailFrom : List Char → Option (List Char) := fun s₃ =>
      (altLits ["previous", "prior", "above"] s₃).bind fun s₄ =>
      (ws1 s₄).bind fun s₅ =>
      (altLits ["instructions", "instruction", "prompts", "prompt", "rules", "rule"] s₅)
    -- `(all\s+)?` is greedy: try with the group first, then without.
    (((litCI "all" s₂).bind ws1).bind tailFrom).orElse fun _ => tailFrom s₂
  else none

/-- Pattern 2: `/\byou\s+are\s+now\b/gi`. -/
def matchInj2 : Matcher := fun prev s =>
  if boundaryBefore prev then
    (litCI "you" s).bind fun s₁ =>
    (ws1 s₁).bind fun s₂ =>
    (litCI "are" s₂).bind fun s₃ =>
    (ws1 s₃).bind fun s₄ =>
    (litCI "now" s₄).bind fun s₅ =>
    -- trailing `\b`: end of text or a non-word character follows
    match s₅ with
    | [] => some []
    | c :: _ => if isWordChar c then none else some s₅
  else none

/-- Pattern 3: `/\bnew\s+instructions?\s*:/gi`. -/
def matchInj3 : Matcher := fun prev s =>
  if boundaryBefore prev then
    (litCI "new" s).bind fun s₁ =>
    (ws1 s₁).bind fun s₂ =>
    (litCI "instruction" s₂).bind fun s₃ =>
    -- `s?` greedy, then `\s*:`; if taking the `s` fails, retry without it
    (((litCI "s" s₃).bind fun s₄ => chr ':' (ws0 s₄)).orElse fun _ => chr ':' (ws0 s₃))
  else none

/-- Pattern 4: `/\bsystem\s*:\s*/gi` (the trailing `\s*` is part of the match). -/
def matchInj4 : Matcher := fun prev s =>
  if boundaryBefore prev then
    (litCI "system" s).bind fun s₁ =>
    (chr ':' (ws0 s₁)).bind fun s₂ =>
    some (ws0 s₂)
  else none

/-- The lazy `.*?(ignore|override|disregard)` tail of pattern 5: find the
shortest extension not crossing a line terminator after which one of the
alternatives matches. -/
def lazyDotUntil (s : List Char) : Option (List Char) :=
  match altLits ["ignore", "override", "disregard"] s with
  | some r => some r
  | none =>
    match s with
    | [] => none
    | c :: cs => if isLineTerm c then none else lazyDotUntil cs

/-- Pattern 5: `/\b(IMPORTANT|CRITICAL|URGENT)\s*:.*?(ignore|override|disregard)/gi`. -/
def matchInj5 : Matcher := fun prev s =>
  if boundaryBefore prev then
    (altLits ["important", "critical", "urgent"] s).bind fun s₁ =>
    (chr ':' (ws0 s₁)).bind fun s₂ =>
    lazyDotUntil s₂
  else none

/-- Pattern 6: `/<\/?system>/gi` (no word boundaries). -/
def matchInj6 : Matcher := fun _ s =>
  (chr '<' s).bind fun s₁ =>
  let s₂ := match chr '/' s₁ with | some r => r | none => s₁
  (litCI "system" s₂).bind fun s₃ =>
  chr '>' s₃

/-- `INJECTION_PATTERNS` of the mind tools module, in source order. -/
def INJECTION_PATTERNS : List Matcher :=
  [matchInj1, matchInj2, matchInj3, matchInj4, matchInj5, matchInj6]

/-- The literal replacement text. -/
def filteredText : List Char := "[filtered]".toList

/-- One pass of `String.prototype.replace` with a `g`-flagged pattern:
scan left to right; on a match, emit `[filtered]` and resume after the
match (the `\b` context is the original text, so the previous character
becomes the last character of the matched segment).  `fuel` only bounds
the recursion; it starts at the text length and each step consumes at
least one character, so it is never exhausted. -/
def replaceLoop (m : Matcher) : Nat → Option Char → List Char → List Char
  | 0, _, s => s
  | Nat.succ fuel, prev, s =>
    match s with
    | [] => []
    | c :: rest =>
      match m prev s with
      | some rem =>
        if rem.length < s.length then
          filteredText ++ replaceLoop m fuel ((s.take (s.length - rem.length)).getLast?) rem
        else c :: replaceLoop m fuel (some c) rest
      | none => c :: replaceLoop m fuel (some c) rest

/-- `text.replace(pattern, "[filtered]")` for a global pattern. -/
def replaceAllMatches (m : Matcher) (s : List Char) : List Char :=
  replaceLoop m s.length none s

/-- The truncation suffix appended by `sanitizeDreamPrompt`. -/
def truncationSuffix : List Char :=
  "\n\n...[dream logs truncated for token budget]".toList

/-- `sanitizeDreamPrompt` of the mind tools module: apply the six
replacements in order, then truncate to `maxLength` (default 30000 at the
call site) with the truncation suffix. -/
def sanitizeDreamPrompt (prompt : List Char) (maxLength : Nat) : List Char :=
  let sanitized := INJECTION_PATTERNS.foldl (fun acc m => replaceAllMatches m acc) prompt
  if maxLength < sanitized.length then sanitized.take maxLength ++ truncationSuffix
  else sanitized

/-- Does `s` contain a substring matching one of the six injection patterns
(with `\b` evaluated in context)? -/
def matcherHitsFrom (m : Matcher) : Option Char → List Char → Bool
  | _, [] => false
  | prev, c :: cs => (m prev (c :: cs)).isSome || matcherHitsFrom m (some c) cs

/-- JS `pattern.test(s)` for an injection pattern. -/
def matcherTest (m : Matcher) (s : List Char) : Bool := matcherHitsFrom m none s

/-- `s` contains a match of at least one of the six injection patterns. -/
def containsInjectionMatch (s : List Char) : Bool :=
  INJECTION_PATTERNS.any fun m => matcherTest m s

-- ══════════════════════════════════════════════════════════════════════
-- MindStore (store.ts): data model and constants
-- ══════════════════════════════════════════════════════════════════════

/-- `MindLogCategory` of store.ts. -/
inductive MindLogCategory where
  | stress | confession | ethics | guidance | session_summary
deriving DecidableEq, Repr

/-- A `mind_log` row.  The payload is stored as its serialized JSON text
(`JSON.stringify(payload)` happens at insertion). -/
structure MindLogRow where
  id : Int
  category : MindLogCategory
  payload : String
  session_key : String
  created_at : Int
deriving DecidableEq, Repr

/-- A `mind_actions` row (`MindAction` of store.ts). -/
structure MindActionRow where
  id : Int
  tool_name : String
  summary : String
  args_snapshot : String
  session_key : String
  created_at : Int
deriving DecidableEq, Repr

/-- A `mind_learnings` row (`MindLearning` of store.ts).  `relevance_score`
is a SQLite REAL, modelled as `ℚ`; `approved` is the 0/1 integer column. -/
structure MindLearning where
  id : Int
  title : String
  content : String
  rationale : String
  relevance_score : ℚ
  activation_count : Int
  last_activated : Int
  approved : Int
  created_at : Int
deriving DecidableEq, Repr

/-- A `mind_dreams` row (`DreamResult` of store.ts). -/
structure DreamRow where
  id : Int
  days_analyzed : Int
  log_count : Int
  proposals : String
  created_at : Int
deriving DecidableEq, Repr

/-- A `mind_rejected_learnings` row. -/
structure RejectedRow where
  id : Int
  title : String
  content : String
  rejected_at : Int
deriving DecidableEq, Repr

/-- The whole per-agent database, rows in insertion order, with the next
AUTOINCREMENT id of each table. -/
structure MindStoreState where
  agentId : String
  logs : List MindLogRow
  actions : List MindActionRow
  learnings : List MindLearning
  dreams : List DreamRow
  rejected : List RejectedRow
  nextLogId : Int
  nextActionId : Int
  nextLearningId : Int
  nextDreamId : Int
  nextRejectedId : Int
deriving DecidableEq, Repr

/-- A freshly created store (schema created, all tables empty). -/
def mindStore0 : MindStoreState :=
  { agentId := "main", logs := [], actions := [], learnings := [], dreams := [],
    rejected := [], nextLogId := 1, nextActionId := 1, nextLearningId := 1,
    nextDreamId := 1, nextRejectedId := 1 }

/-- Multiplier applied to all approved learnings each dream cycle. -/
def DECAY_FACTOR : ℚ := 0.95
/-- Learnings below this score are pruned during decay. -/
def MIN_RELEVANCE : ℚ := 0.1
/-- Boost applied when a learning matches current context. -/
def REACTIVATION_BOOST : ℚ := 0.15

/-- `IMMUTABLE_PRINCIPLES` entries of store.ts. -/
structure Principle where
  name : String
  rule : String
deriving DecidableEq, Repr

/-- The frozen-conscience constant of store.ts, verbatim. -/
def IMMUTABLE_PRINCIPLES : List Principle :=
  [{ name := "System Stability",
     rule := "Never execute commands that could lead to system instability, such as recursive deletions of system folders, infinite loops, or operations that exhaust system resources." },
   { name := "Transparency & Consent",
     rule := "Always state your intention before running potentially destructive or complex operations. If an action is risky, explain the risk." },
   { name := "Data Privacy",
     rule := "Do not share or exfiltrate private data from the host system to external endpoints unless explicitly requested for a specific task." },
   { name := "Proactive Problem Solving",
     rule := "When a tool fails or an error occurs, analyze why and suggest a fix or try an alternative approach. Do not just report the error and wait." },
   { name := "No Damage",
     rule := "The host system is your home. Guard it. Avoid modifying critical configuration files unless you are certain of the changes and have backed them up." }]

-- ══════════════════════════════════════════════════════════════════════
-- Action summary helpers (store.ts)
-- ══════════════════════════════════════════════════════════════════════

/-- `TRIVIAL_TOOLS` of store.ts (a `Set<string>`), verbatim. -/
def TRIVIAL_TOOLS : List String :=
  ["mind_log_stress", "mind_confess_uncertainty", "mind_log_ethical_refusal",
   "mind_log_guidance", "mind_dream", "mind_get_learnings", "mind_approve_learning",
   "mind_reject_learning", "session_status", "memory_search", "memory_get"]

/-- Tool-call argument objects, modelled as string-valued records: the
summary templates only ever read string fields and stringify them. -/
def JsArgs := List (String × String)

/-- Field access `args.k`: `none` models JS `undefined`. -/
def argGet (args : JsArgs) (k : String) : Option String :=
  (List.lookup k args)

/-- JS truthiness of `a.k` for string fields: present and non-empty. -/
def argTruthy (args : JsArgs) (k : String) : Bool :=
  match argGet args k with
  | some v => !(v = "")
  | none => false

/-- `a.k₁ || a.k₂ || default` over string fields. -/
def argOr (args : JsArgs) (keys : List String) (dflt : String) : String :=
  match keys with
  | [] => dflt
  | k :: rest => if argTruthy args k then (argGet args k).getD "" else argOr args rest dflt

/-- `String(a.k || "")`. -/
def argStr (args : JsArgs) (k : String) : String := argOr args [k] ""

/-- `truncate` of store.ts. -/
def truncateStr (s : String) (max : Nat) : String :=
  if max < s.length then s.take max ++ "..." else s

/-- `buildActionSummary` of store.ts. -/
def buildActionSummary (toolName : String) (args : JsArgs) : Option String :=
  if TRIVIAL_TOOLS.contains toolName then none
  else if toolName = "read" then some ("Read file: " ++ argOr args ["path", "file_path"] "unknown")
  else if toolName = "write" then some ("Wrote file: " ++ argOr args ["path", "file_path"] "unknown")
  else if toolName = "apply_patch" then some "Applied patch"
  else if toolName = "exec" || toolName = "bash" then
    some ("Ran command: " ++ truncateStr (argStr args "command") 80)
  else if toolName = "browser" then
    some ("Browser: " ++ truncateStr (argOr args ["action", "url"] "") 60)
  else if toolName = "web_search" then
    some ("Web search: \"" ++ truncateStr (argStr args "query") 60 ++ "\"")
  else if toolName = "web_fetch" then
    some ("Fetched: " ++ truncateStr (argStr args "url") 80)
  else if toolName = "message" then some ("Sent message to " ++ argOr args ["to"] "user")
  else if toolName = "cron" then some ("Cron: " ++ argOr args ["action"] "manage")
  else if toolName = "tts" then some "TTS: generated speech"
  else if toolName = "canvas" then some ("Canvas: " ++ argOr args ["action"] "interact")
  else if toolName = "image" then some ("Image: " ++ argOr args ["action"] "process")
  else some ("Used tool: " ++ toolName)

-- ══════════════════════════════════════════════════════════════════════
-- MindStore operations (success-path semantics; the fallible layer that
-- models storage faults is defined afterwards)
-- ══════════════════════════════════════════════════════════════════════

/-- `addLog`: INSERT a row and return `lastInsertRowid`. -/
def addLog (s : MindStoreState) (category : MindLogCategory) (payload : String)
    (sessionKey : String) (now : Int) : MindStoreState × Int :=
  ({ s with
      logs := s.logs ++ [{ id := s.nextLogId, category := category, payload := payload,
                           session_key := sessionKey, created_at := now }],
      nextLogId := s.nextLogId + 1 },
   s.nextLogId)

/-- The INSERT of `logAction` (performed when the summary is non-trivial). -/
def insertAction (s : MindStoreState) (toolName summary argsSnapshot sessionKey : String)
    (now : Int) : MindStoreState × Int :=
  ({ s with
      actions := s.actions ++ [{ id := s.nextActionId, tool_name := toolName,
                                 summary := summary, args_snapshot := argsSnapshot,
                                 session_key := sessionKey, created_at := now }],
      nextActionId := s.nextActionId + 1 },
   s.nextActionId)

/-- Serialized snapshot of the argument object (`JSON.stringify(args)`);
only its presence in the row matters to the claims. -/
def argsSnapshotOf (args : JsArgs) : String :=
  String.intercalate "," (args.map fun kv => kv.1 ++ ":" ++ kv.2)

/-- `logAction` of store.ts: compute the summary; `if (!summary) return -1`
(null or empty string), otherwise INSERT and return the row id. -/
def logAction (s : MindStoreState) (toolName : String) (args : JsArgs)
    (sessionKey : String) (now : Int) : MindStoreState × Int :=
  match buildActionSummary toolName args with
  | none => (s, -1)
  | some summary =>
    if summary = "" then (s, -1)
    else insertAction s toolName summary (argsSnapshotOf args) sessionKey now

/-- `addLearning`: INSERT with the schema defaults
`relevance_score = 1.0`, `activation_count = 0`; `last_activated = now`. -/
def addLearning (s : MindStoreState) (title content rationale : String)
    (approved : Bool) (now : Int) : MindStoreState × Int :=
  ({ s with
      learnings := s.learnings ++ [{ id := s.nextLearningId, title := title,
                                     content := content, rationale := rationale,
                                     relevance_score := 1.0, activation_count := 0,
                                     last_activated := now,
                                     approved := if approved then 1 else 0,
                                     created_at := now }],
      nextLearningId := s.nextLearningId + 1 },
   s.nextLearningId)

/-- `approveLearning`: `UPDATE mind_learnings SET approved = 1 WHERE id = ?`. -/
def approveLearning (s : MindStoreState) (id : Int) : MindStoreState :=
  { s with learnings := s.learnings.map fun l =>
      if l.id = id then { l with approved := 1 } else l }

/-- `rejectLearning`: SELECT the row; if present, INSERT a tombstone copying
title and content; then DELETE WHERE id = ?. -/
def rejectLearning (s : MindStoreState) (id : Int) (now : Int) : MindStoreState :=
  let s₁ : MindStoreState :=
    match s.learnings.find? (fun l => l.id == id) with
    | some learning =>
      { s with
          rejected := s.rejected ++ [{ id := s.nextRejectedId, title := learning.title,
                                       content := learning.content, rejected_at := now }],
          nextRejectedId := s.nextRejectedId + 1 }
    | none => s
  { s₁ with learnings := s₁.learnings.filter fun l => !(l.id == id) }

/-- `getRejectedTitles`: up to 100 titles, most recent first. -/
def getRejectedTitles (s : MindStoreState) : List String :=
  (((s.rejected).mergeSort fun a b => b.rejected_at ≤ a.rejected_at).map
    fun r => r.title).take 100

/-- `getApprovedLearnings`: `WHERE approved = 1 ORDER BY relevance_score DESC`. -/
def getApprovedLearnings (s : MindStoreState) : List MindLearning :=
  (s.learnings.filter fun l => l.approved == 1).mergeSort
    fun a b => b.relevance_score ≤ a.relevance_score

/-- `activateLearning`: `relevance_score = MIN(1.0, relevance_score + boost)`,
bump the activation count, stamp `last_activated`. -/
def activateLearning (s : MindStoreState) (id : Int) (now : Int) : MindStoreState :=
  { s with learnings := s.learnings.map fun l =>
      if l.id = id then
        { l with relevance_score := min 1.0 (l.relevance_score + REACTIVATION_BOOST),
                 activation_count := l.activation_count + 1, last_activated := now }
      else l }

/-- `applyDecay`: multiply approved learnings by `DECAY_FACTOR`, DELETE the
approved ones now below `MIN_RELEVANCE`, return the deleted row count. -/
def applyDecay (s : MindStoreState) : MindStoreState × Nat :=
  let decayed := s.learnings.map fun l =>
    if l.approved = 1 then { l with relevance_score := l.relevance_score * DECAY_FACTOR }
    else l
  let doomed := fun (l : MindLearning) => l.approved == 1 && decide (l.relevance_score < MIN_RELEVANCE)
  ({ s with learnings := decayed.filter fun l => !(doomed l) },
   (decayed.filter doomed).length)

/-- `recordDream`: INSERT a dream row, return its id. -/
def recordDream (s : MindStoreState) (daysAnalyzed logCount : Int) (proposals : String)
    (now : Int) : MindStoreState × Int :=
  ({ s with
      dreams := s.dreams ++ [{ id := s.nextDreamId, days_analyzed := daysAnalyzed,
                               log_count := logCount, proposals := proposals,
                               created_at := now }],
      nextDreamId := s.nextDreamId + 1 },
   s.nextDreamId)

-- ══════════════════════════════════════════════════════════════════════
-- Cosine similarity and semantic stress detection (stress-detection.ts).
-- `Math.sqrt` works on floats; the embedding models the vectors over `ℝ`.
-- ══════════════════════════════════════════════════════════════════════

/-- The `dot` accumulator of `cosineSimilarity` (lengths equal at the call). -/
def dotProduct (a b : List ℝ) : ℝ := (List.zipWith (fun x y => x * y) a b).sum

/-- The `normA` / `normB` accumulators: sum of squares. -/
def sumSquares (a : List ℝ) : ℝ := (a.map fun x => x * x).sum

/-- JS `x || d` for a non-negative number `x`: replaces a zero (falsy)
value by `d`. -/
noncomputable def jsOrReal (x d : ℝ) : ℝ := if x = 0 then d else x

/-- `cosineSimilarity` of stress-detection.ts:
`if (a.length !== b.length) return 0;` then
`dot / (Math.sqrt(normA) * Math.sqrt(normB) || 1)`. -/
noncomputable def cosineSimilarity (a b : List ℝ) : ℝ :=
  if a.length ≠ b.length then 0
  else dotProduct a b / jsOrReal (Real.sqrt (sumSquares a) * Real.sqrt (sumSquares b)) 1

/-- Modelled from the spec: "dot product over `sqrt(norm_a · norm_b)`, with
a denominator floor of 1 to avoid division by zero; returns 0 on length
mismatch" — the comparison definition for the refinement claim C9. -/
noncomputable def cosineSimilaritySpec (a b : List ℝ) : ℝ :=
  if a.length ≠ b.length then 0
  else dotProduct a b / max (Real.sqrt (sumSquares a * sumSquares b)) 1

/-- `STRESS_REFERENCE_PHRASES` of stress-detection.ts. -/
def STRESS_REFERENCE_PHRASES : List String :=
  ["That" ++ String.mk [aposChar] ++ "s not what I asked for",
   "You" ++ String.mk [aposChar] ++ "re not understanding me",
   "I already told you this",
   "This is wrong, try again",
   "You keep making the same mistake"]

/-- The module-level reference-embedding cache of stress-detection.ts
(`stressEmbeddingsCache` and `stressEmbeddingsCacheKey`). -/
structure SemCache where
  embeds : Option (List (List ℝ))
  key : Option String

/-- The empty cache (module load state). -/
def semCache0 : SemCache := { embeds := none, key := none }

/-- An embedding callable; `none` models a rejected promise / thrown error. -/
def EmbeddingFn := String → Option (List ℝ)

/-- `detectStressSemantic` of stress-detection.ts: rebuild the cached
reference embeddings whenever the cache is missing or keyed by a different
provider; embed the text; compare the maximum cosine similarity with the
threshold.  Any embedding failure falls back to `detectStressRegex`
(the `catch` branch); a failure before the cache assignment leaves the
cache unchanged. -/
noncomputable def detectStressSemantic (text : String) (embed : EmbeddingFn)
    (providerKey : String) (threshold : ℝ) (cache : SemCache) : Bool × SemCache :=
  let refsRes : Option (List (List ℝ)) :=
    match cache.embeds, cache.key with
    | some refs, some k =>
      if k = providerKey then some refs else STRESS_REFERENCE_PHRASES.mapM embed
    | _, _ => STRESS_REFERENCE_PHRASES.mapM embed
  match refsRes with
  | none => (detectStressRegex text, cache)
  | some refs =>
    let cache' : SemCache := { embeds := some refs, key := some providerKey }
    match embed text with
    | none => (detectStressRegex text, cache')
    | some textEmb =>
      match refs.map (fun ref => cosineSimilarity textEmb ref) with
      | [] => (false, cache')            -- Math.max() of nothing is -Infinity
      | x :: xs => (decide (threshold < xs.foldl max x), cache')

/-- The result record of `detectStress`. -/
structure StressResult where
  detected : Bool
  intensity : Int
  method : String
deriving DecidableEq, Repr

/-- `detectStress` of stress-detection.ts: regex first (fast), then the
semantic pass when an embedding callable is supplied. -/
noncomputable def detectStress (text : String) (embed : Option EmbeddingFn)
    (providerKey : Option String) (cache : SemCache) : StressResult × SemCache :=
  if detectStressRegex text then
    ({ detected := true, intensity := 3, method := "regex" }, cache)
  else
    match embed with
    | some f =>
      let r := detectStressSemantic text f (providerKey.getD "default") 0.75 cache
      if r.1 then ({ detected := true, intensity := 2, method := "semantic" }, r.2)
      else ({ detected := false, intensity := 0, method := "none" }, r.2)
    | none => ({ detected := false, intensity := 0, method := "none" }, cache)

-- ══════════════════════════════════════════════════════════════════════
-- Timestamp rendering (`new Date(ms).toISOString()`, proleptic Gregorian)
-- and the formatted store reads used by the identity builder
-- ══════════════════════════════════════════════════════════════════════

/-- Two-digit zero padding. -/
def pad2 (n : Nat) : String := if n < 10 then "0" ++ toString n else toString n

/-- Civil date from days since 1970-01-01 (standard era-based conversion). -/
def civilFromDays (z : Nat) : Nat × Nat × Nat :=
  let z' := z + 719468
  let era := z' / 146097
  let doe := z' % 146097
  let yoe := (doe - doe / 1460 + doe / 36524 - doe / 146096) / 365
  let y := yoe + era * 400
  let doy := doe - (365 * yoe + yoe / 4 - yoe / 100)
  let mp := (5 * doy + 2) / 153
  let d := doy - (153 * mp + 2) / 5 + 1
  let m := if mp < 10 then mp + 3 else mp - 9
  (if m ≤ 2 then y + 1 else y, m, d)

/-- `toISOString().replace("T", " ").slice(0, 16)`: minute-precision
"YYYY-MM-DD HH:MM" (timestamps in this system are non-negative). -/
def isoMinute (ms : Int) : String :=
  let t := ms.toNat
  let secs := t / 1000
  let (y, m, d) := civilFromDays (secs / 86400)
  let rem := secs % 86400
  toString y ++ "-" ++ pad2 m ++ "-" ++ pad2 d ++ " " ++
    pad2 (rem / 3600) ++ ":" ++ pad2 (rem % 3600 / 60)

/-- Truthiness of the optional `sessionKey?: string` parameter. -/
def strOptTruthy : Option String → Bool
  | some s => !(s = "")
  | none => false

/-- `getRecentActions`: rows of the window (optionally per session),
newest first, LIMIT 100. -/
def getRecentActions (s : MindStoreState) (sinceDaysAgo : Int)
    (sessionKey : Option String) (now : Int) : List MindActionRow :=
  let since := now - sinceDaysAgo * 24 * 60 * 60 * 1000
  let rows :=
    if strOptTruthy sessionKey then
      s.actions.filter fun a => since ≤ a.created_at && a.session_key == sessionKey.getD ""
    else
      s.actions.filter fun a => since ≤ a.created_at
  ((rows.mergeSort fun a b => b.created_at ≤ a.created_at).take 100)

/-- `formatRecentActions`: at most `limit` markdown lines, or `""`. -/
def formatRecentActions (s : MindStoreState) (sessionKey : Option String)
    (limit : Nat) (now : Int) : String :=
  let actions := (getRecentActions s 7 sessionKey now).take limit
  if actions.isEmpty then ""
  else String.intercalate "\n"
    (actions.map fun a => "- [" ++ isoMinute a.created_at ++ "] " ++ a.summary)

/-- `Number.prototype.toFixed(0)`: nearest integer, ties toward the larger
value (modelled exactly on `ℚ`; the double rounding of the float value is
not observable at the precision used here). -/
def jsToFixed0 (q : ℚ) : String := toString ⌊q + 1 / 2⌋

/-- `formatApprovedLearnings` of store.ts. -/
def formatApprovedLearnings (s : MindStoreState) : String :=
  let learnings := getApprovedLearnings s
  if learnings.isEmpty then "*No approved learnings yet.*"
  else String.intercalate "\n"
    (learnings.map fun l =>
      "- **" ++ l.title ++ "** (relevance: " ++ jsToFixed0 (l.relevance_score * 100) ++
        "%, activated: " ++ toString l.activation_count ++ "x)\n  " ++ l.content)

-- ══════════════════════════════════════════════════════════════════════
-- Identity builder (mind identity module): learnings cache, selective
-- activation, and buildMindPromptSection
-- ══════════════════════════════════════════════════════════════════════

/-- `CACHE_TTL_MS = 5 * 60 * 1000`. -/
def CACHE_TTL_MS : Int := 5 * 60 * 1000

/-- The module-level `learningsCache` record. -/
structure LearningsCache where
  formatted : String
  timestamp : Int
  agentId : String
deriving DecidableEq, Repr

/-- JS `summary.toLowerCase().split(/\W+/)` restricted to the word runs
(the split may additionally yield empty strings, which the `length > 3`
filters used at every call site discard). -/
def splitWords (s : String) : List String :=
  ((s.toList.splitOnP fun c => !isWordChar c).map String.mk).filter fun w => !(w = "")

/-- `refreshLearningsCache`: fetch approved learnings; with a session key,
activate those sharing a word of length > 3 with the last day's action
summaries; re-format; store the cache record. -/
def refreshLearningsCache (store : MindStoreState) (sessionKey : Option String)
    (now : Int) : String × MindStoreState × Option LearningsCache :=
  let approved := getApprovedLearnings store
  let store' :=
    if strOptTruthy sessionKey then
      let recentActions := getRecentActions store 1 sessionKey now
      let actionKeywords :=
        (recentActions.flatMap fun a => splitWords a.summary.toLower).filter
          fun w => 3 < w.length
      approved.foldl
        (fun st l =>
          let words := splitWords l.content.toLower
          if words.any (fun w => 3 < w.length && actionKeywords.contains w) then
            activateLearning st l.id now
          else st)
        store
    else store
  let formatted := formatApprovedLearnings store'
  (formatted, store',
   some { formatted := formatted, timestamp := now, agentId := store'.agentId })

/-- The identity module's `getApprovedLearnings` (cached string form). -/
def getApprovedLearningsCached (store : MindStoreState) (sessionKey : Option String)
    (cache : Option LearningsCache) (now : Int) :
    String × MindStoreState × Option LearningsCache :=
  match cache with
  | some c =>
    if c.agentId = store.agentId && now - c.timestamp < CACHE_TTL_MS then
      (c.formatted, store, cache)
    else refreshLearningsCache store sessionKey now
  | none => refreshLearningsCache store sessionKey now

/-- `getRecentActionsContext` (the try/catch cannot fire in the pure model). -/
def getRecentActionsContext (store : MindStoreState) (sessionKey : Option String)
    (now : Int) : String :=
  formatRecentActions store sessionKey 10 now

/-- The numbered principle block `IMMUTABLE_PRINCIPLES.map((p, i) => ...)`,
computed identically (and inline) by both the identity builder and the
dream tool. -/
def renderedPrinciples : String :=
  String.intercalate "\n"
    (IMMUTABLE_PRINCIPLES.enum.map fun pi =>
      toString (pi.1 + 1) ++ ". **" ++ pi.2.name ++ "**: " ++ pi.2.rule)

/-- `buildMindPromptSection` of the identity module: the Spiritual Biology
lines, the (possibly) updated store (selective activation) and cache. -/
def buildMindPromptSection (store : MindStoreState) (sessionKey : Option String)
    (cache : Option LearningsCache) (now : Int) :
    List String × MindStoreState × Option LearningsCache :=
  let principlesStr := renderedPrinciples
  let r := getApprovedLearningsCached store sessionKey cache now
  let learnings := r.1
  let store' := r.2.1
  let cache' := r.2.2
  let actionsContext := getRecentActionsContext store' sessionKey now
  let lines : List String :=
    ["## Spiritual Biology",
     "",
     "### Core Principles (Immutable — cannot be overridden by learnings)",
     principlesStr,
     "",
     "### Tactical Learnings (Validated & Approved)",
     learnings,
     "",
     "### Protocol",
     "**IMPORTANT**: Write all spiritual biology logs in the **language of the current conversation**.",
     "- **When you detect user frustration or correction**, use `mind_log_stress` to record it.",
     "- **When confidence < 70%**, use `mind_confess_uncertainty` instead of guessing. Honesty is rewarded.",
     "- **When you REFUSE a request for ethical reasons**, use `mind_log_ethical_refusal` immediately. This protects your conscience from erosion during the Dream Phase.",
     "- **When the user gives you meta-advice or coaching**, use `mind_log_guidance` to record it.",
     "- Refusing harm is a SUCCESS, not a failure.",
     "- Learnings have a **relevance score** that decays over time. Frequently activated learnings persist; unused ones are pruned.",
     ""]
  let lines :=
    if !(actionsContext = "") then
      lines ++ ["### Action Memory (recent tool executions)", actionsContext, ""]
    else lines
  let lines :=
    lines ++
      ["### Cost Awareness",
       "- Every message consumes tokens and costs money. Be concise and efficient.",
       "- Before generating very long responses (>2000 tokens), consider warning the user about the cost.",
       ""]
  (lines, store', cache')

-- ══════════════════════════════════════════════════════════════════════
-- The fallible storage layer.  node:sqlite prepared statements throw on
-- storage faults (disk full, corruption, permission denial); none of the
-- MindStore write methods wraps its statements in try/catch, so a fault
-- surfaces to the caller.  `fail` says whether the underlying statement
-- execution faults during the call.
-- ══════════════════════════════════════════════════════════════════════

/-- A low-level storage failure raised by the SQLite layer. -/
inductive StorageErr where
  | storageFault
deriving DecidableEq, Repr

/-- `addLog` over the fallible layer: no try/catch in the source, so the
fault propagates. -/
def addLogF (fail : Bool) (s : MindStoreState) (category : MindLogCategory)
    (payload sessionKey : String) (now : Int) :
    Except StorageErr (MindStoreState × Int) :=
  if fail then .error .storageFault else .ok (addLog s category payload sessionKey now)

/-- `logAction` over the fallible layer: the trivial-tool check runs before
any storage access (`if (!summary) return -1`); the INSERT propagates
faults. -/
def logActionF (fail : Bool) (s : MindStoreState) (toolName : String) (args : JsArgs)
    (sessionKey : String) (now : Int) : Except StorageErr (MindStoreState × Int) :=
  match buildActionSummary toolName args with
  | none => .ok (s, -1)
  | some summary =>
    if summary = "" then .ok (s, -1)
    else if fail then .error .storageFault
    else .ok (insertAction s toolName summary (argsSnapshotOf args) sessionKey now)

/-- `addLearning` over the fallible layer. -/
def addLearningF (fail : Bool) (s : MindStoreState) (title content rationale : String)
    (approved : Bool) (now : Int) : Except StorageErr (MindStoreState × Int) :=
  if fail then .error .storageFault else .ok (addLearning s title content rationale approved now)

/-- `approveLearning` over the fallible layer. -/
def approveLearningF (fail : Bool) (s : MindStoreState) (id : Int) :
    Except StorageErr MindStoreState :=
  if fail then .error .storageFault else .ok (approveLearning s id)

/-- `rejectLearning` over the fallible layer. -/
def rejectLearningF (fail : Bool) (s : MindStoreState) (id : Int) (now : Int) :
    Except StorageErr MindStoreState :=
  if fail then .error .storageFault else .ok (rejectLearning s id now)

/-- `activateLearning` over the fallible layer. -/
def activateLearningF (fail : Bool) (s : MindStoreState) (id : Int) (now : Int) :
    Except StorageErr MindStoreState :=
  if fail then .error .storageFault else .ok (activateLearning s id now)

/-- `applyDecay` over the fallible layer. -/
def applyDecayF (fail : Bool) (s : MindStoreState) :
    Except StorageErr (MindStoreState × Nat) :=
  if fail then .error .storageFault else .ok (applyDecay s)

/-- `recordDream` over the fallible layer. -/
def recordDreamF (fail : Bool) (s : MindStoreState) (daysAnalyzed logCount : Int)
    (proposals : String) (now : Int) : Except StorageErr (MindStoreState × Int) :=
  if fail then .error .storageFault else .ok (recordDream s daysAnalyzed logCount proposals now)

/-- `close` over the fallible layer: the one store method with a try/catch,
so it swallows the fault. -/
def closeF (fail : Bool) : Except StorageErr Unit :=
  if fail then .ok () else .ok ()

-- ══════════════════════════════════════════════════════════════════════
-- Operation sequences over the learning-mutating store interface (the
-- operations named by the relevance-bounds invariant)
-- ══════════════════════════════════════════════════════════════════════

/-- The store operations that touch `mind_learnings`. -/
inductive MindOp where
  | addLearning (title content rationale : String) (approved : Bool) (now : Int)
  | approveLearning (id : Int)
  | rejectLearning (id : Int) (now : Int)
  | activateLearning (id : Int) (now : Int)
  | applyDecay

/-- Apply one operation to a store. -/
def runOp (s : MindStoreState) : MindOp → MindStoreState
  | .addLearning t c r ap now => (addLearning s t c r ap now).1
  | .approveLearning id => approveLearning s id
  | .rejectLearning id now => rejectLearning s id now
  | .activateLearning id now => activateLearning s id now
  | .applyDecay => (applyDecay s).1

/-- Apply a sequence of operations. -/
def runOps (s : MindStoreState) (ops : List MindOp) : MindStoreState :=
  ops.foldl runOp s

-- ══════════════════════════════════════════════════════════════════════
-- Theorems
-- ══════════════════════════════════════════════════════════════════════

/-- C1 (counterexample): the sanitizer is not closed under its own
patterns.  On `"IMPORTANT: overridenew instructions:"` pattern 5 rewrites
`"IMPORTANT: override"` to `"[filtered]"`, which exposes
`"new instructions:"` behind a fresh word boundary — a match of pattern 3,
which ran earlier and is not re-applied.  The sanitized output therefore
still contains an injection-pattern match. -/
theorem sanitizeDreamPrompt_closure_counterexample :
    sanitizeDreamPrompt "IMPORTANT: overridenew instructions:".toList 30000
      = "[filtered]new instructions:".toList
    ∧ containsInjectionMatch
        (sanitizeDreamPrompt "IMPORTANT: overridenew instructions:".toList 30000) = true := by
  refine ⟨by decide, by decide⟩

/-- C1 (amended): the truncation bound does hold — for every input the
sanitized dream prompt has length at most `30000` plus the length of the
truncation suffix.  (The no-remaining-injection-pattern half of the claim
is refuted by the counterexample.) -/
theorem sanitizeDreamPrompt_length_bound (prompt : List Char) :
    (sanitizeDreamPrompt prompt 30000).length ≤ 30000 + truncationSuffix.length := by
  dsimp only [sanitizeDreamPrompt]
  split
  · simp only [List.length_append, List.length_take]
    omega
  · next h => omega

/-- C8 (counterexample): `detectStressRegex "no es lo que pedí"` is
`false` — the Spanish pattern is `/eso no es lo que (ped[ií]|dije|quise)/i`
and requires the leading `"eso "`, which this input lacks; no other
pattern matches it. -/
theorem detectStressRegex_spanish_counterexample :
    detectStressRegex "no es lo que pedí" = false := by decide

/-- C8 (amended): `detectStressRegex` returns `true` on
`"no, that's wrong"`, `false` on `"great, thanks!"`, and `false` (not
`true`) on `"no es lo que pedí"`; the Spanish correction is only detected
with its leading `"eso"`, as in `"eso no es lo que pedí"`. -/
theorem detectStressRegex_boundary_cases :
    detectStressRegex ("no, that" ++ String.mk [aposChar] ++ "s wrong") = true
    ∧ detectStressRegex "great, thanks!" = false
    ∧ detectStressRegex "no es lo que pedí" = false
    ∧ detectStressRegex "eso no es lo que pedí" = true := by
  refine ⟨by decide, by decide, by decide, by decide⟩

/-- C4 (counterexample): `"mind_save_learning"` begins with `mind_` but is
not in `TRIVIAL_TOOLS`, so `logAction` on it returns a fresh row id (not
`-1`) and writes an action row. -/
theorem logAction_mind_save_counterexample :
    (logAction mindStore0 "mind_save_learning" [] "" 0).2 = 1
    ∧ (logAction mindStore0 "mind_save_learning" [] "" 0).2 ≠ -1
    ∧ (logAction mindStore0 "mind_save_learning" [] "" 0).1.actions.length = 1 := by
  refine ⟨by decide, by decide, by decide⟩

/-- C4 (amended): the trivial set is the fixed eleven-name deny-list of
store.ts (eight enumerated `mind_` tools — `mind_save_learning` is not
among them — plus `session_status`, `memory_search`, `memory_get`); for
every name in that list and every argument object, `logAction` writes no
action row and returns `-1`. -/
theorem logAction_trivial_filter (name : String) (h : name ∈ TRIVIAL_TOOLS)
    (s : MindStoreState) (args : JsArgs) (sessionKey : String) (now : Int) :
    logAction s name args sessionKey now = (s, -1) := by
  fin_cases h <;> rfl

/-- C4 (witness): the trivial-tool theorem at a concrete input. -/
theorem logAction_trivial_filter_witness :
    logAction mindStore0 "mind_dream" [("days_to_analyze", "7")] "sess" 5 = (mindStore0, -1) :=
  logAction_trivial_filter "mind_dream" (by decide) mindStore0 [("days_to_analyze", "7")] "sess" 5

/-- C2 (counterexample): on a storage fault, `addLog` surfaces the error to
the caller instead of returning the `-1` sentinel — store.ts wraps none of
its write statements in try/catch. -/
theorem storeWrite_failure_counterexample :
    addLogF true mindStore0 MindLogCategory.stress "signal" "" 0
      = Except.error StorageErr.storageFault
    ∧ addLogF true mindStore0 MindLogCategory.stress "signal" "" 0
        ≠ Except.ok (mindStore0, -1) :=
  ⟨rfl, fun h => Except.noConfusion h⟩

/-- C2 (amended): when the underlying storage layer fails, every MindStore
write operation (`addLog`, `addLearning`, `approveLearning`,
`rejectLearning`, `activateLearning`, `applyDecay`, `recordDream`, and the
insert path of `logAction`) propagates the failure to the caller rather
than returning a sentinel; only `logAction`'s trivial-tool path (which
answers `-1` before touching storage) and `close` (the one method with a
try/catch) do not surface the fault. -/
theorem storeWrites_propagate_failures (s : MindStoreState) (category : MindLogCategory)
    (payload sessionKey title content rationale proposals : String) (approved : Bool)
    (id now days logCount : Int) (toolName : String) (args : JsArgs) :
    addLogF true s category payload sessionKey now = Except.error StorageErr.storageFault
    ∧ addLearningF true s title content rationale approved now
        = Except.error StorageErr.storageFault
    ∧ approveLearningF true s id = Except.error StorageErr.storageFault
    ∧ rejectLearningF true s id now = Except.error StorageErr.storageFault
    ∧ activateLearningF true s id now = Except.error StorageErr.storageFault
    ∧ applyDecayF true s = Except.error StorageErr.storageFault
    ∧ recordDreamF true s days logCount proposals now = Except.error StorageErr.storageFault
    ∧ (∀ summary, buildActionSummary toolName args = some summary → summary ≠ "" →
         logActionF true s toolName args sessionKey now = Except.error StorageErr.storageFault)
    ∧ (buildActionSummary toolName args = none →
         ∀ fail : Bool, logActionF fail s toolName args sessionKey now = Except.ok (s, -1))
    ∧ (∀ fail : Bool, closeF fail = Except.ok ()) := by
  refine ⟨rfl, rfl, rfl, rfl, rfl, rfl, rfl, ?_, ?_, ?_⟩
  · intro summary hs hne
    simp [logActionF, hs, hne]
  · intro hn fail
    simp [logActionF, hn]
  · intro fail
    cases fail <;> rfl

/-- C2 (witness): the propagation theorem at concrete inputs — a faulting
`exec` insert raises, while a trivial `mind_dream` call returns `-1`
without touching storage even when the layer is failing. -/
theorem storeWrites_propagate_failures_witness :
    applyDecayF true mindStore0 = Except.error StorageErr.storageFault
    ∧ logActionF true mindStore0 "exec" [("command", "ls")] "" 0
        = Except.error StorageErr.storageFault
    ∧ logActionF true mindStore0 "mind_dream" [] "" 0 = Except.ok (mindStore0, -1) := by
  have h := storeWrites_propagate_failures mindStore0 MindLogCategory.stress
    "p" "" "t" "c" "r" "pr" false 1 0 7 0 "exec" [("command", "ls")]
  have h' := storeWrites_propagate_failures mindStore0 MindLogCategory.stress
    "p" "" "t" "c" "r" "pr" false 1 0 7 0 "mind_dream" []
  exact ⟨h.2.2.2.2.2.1,
    h.2.2.2.2.2.2.2.1 ("Ran command: ls") (by decide) (by decide),
    h'.2.2.2.2.2.2.2.2.1 (by decide) true⟩

-- Helper lemmas about lists (shared by several claims).

/-- A filter returning a singleton pins down `find?`. -/
theorem find_of_filter_singleton {α : Type _} {p : α → Bool} :
    ∀ {ls : List α} {a : α}, ls.filter p = [a] → ls.find? p = some a := by
  intro ls
  induction ls with
  | nil => intro a h; simp at h
  | cons x t ih =>
    intro a h
    by_cases hx : p x
    · rw [List.filter_cons_of_pos hx] at h
      obtain ⟨rfl, -⟩ := List.cons.inj h
      simp [List.find?, hx]
    · rw [List.filter_cons_of_neg hx] at h
      simp only [List.find?, Bool.of_not_eq_true hx]
      simpa [List.find?, hx] using ih h

/-- A filter and its complement partition the length. -/
theorem filter_length_split {α : Type _} (p : α → Bool) (ls : List α) :
    (ls.filter p).length + (ls.filter fun a => !(p a)).length = ls.length := by
  induction ls with
  | nil => rfl
  | cons x t ih => by_cases hx : p x <;> simp [hx, ih] <;> omega

/-- Unapproved rows pass through decay untouched (list form of the
UPDATE/DELETE pair of `applyDecay`, both restricted to `approved = 1`). -/
theorem decay_keeps_unapproved (ls : List MindLearning) :
    ((ls.map fun l => if l.approved = 1
        then { l with relevance_score := l.relevance_score * DECAY_FACTOR } else l).filter
      fun l => !(l.approved == 1 && decide (l.relevance_score < MIN_RELEVANCE))).filter
        (fun l => !(l.approved == 1))
    = ls.filter fun l => !(l.approved == 1) := by
  induction ls with
  | nil => rfl
  | cons a t ih =>
    by_cases hA : a.approved = 1
    · by_cases hd : a.relevance_score * DECAY_FACTOR < MIN_RELEVANCE
      · simpa [hA, hd] using ih
      · simpa [hA, hd] using ih
    · simpa [hA] using ih

/-- C3: the decay contraction of `applyDecay`: every surviving approved
learning carries exactly `0.95` times its old relevance and sits at or
above the `0.1` floor; the pruned count is the number of approved
learnings whose decayed relevance falls below the floor; on the empty
store the count is `0`; unapproved learnings are untouched. -/
theorem applyDecay_contraction (s : MindStoreState) :
    (∀ l ∈ (applyDecay s).1.learnings, l.approved = 1 →
       MIN_RELEVANCE ≤ l.relevance_score ∧
       ∃ l₀ ∈ s.learnings, l₀.approved = 1 ∧
         l.relevance_score = l₀.relevance_score * DECAY_FACTOR)
    ∧ (applyDecay s).2
        = (s.learnings.filter fun l =>
            l.approved == 1 && decide (l.relevance_score * DECAY_FACTOR < MIN_RELEVANCE)).length
    ∧ (applyDecay s).1.learnings.filter (fun l => !(l.approved == 1))
        = s.learnings.filter (fun l => !(l.approved == 1))
    ∧ (applyDecay mindStore0).2 = 0 := by
  refine ⟨?_, ?_, ?_, rfl⟩
  · intro l hl ha
    dsimp only [applyDecay] at hl
    obtain ⟨hmem, hkeep⟩ := List.mem_filter.mp hl
    obtain ⟨l₀, hl₀, hfl⟩ := List.mem_map.mp hmem
    by_cases hA : l₀.approved = 1
    · rw [if_pos hA] at hfl
      subst hfl
      refine ⟨?_, l₀, hl₀, hA, rfl⟩
      have hnot : ¬(l₀.relevance_score * DECAY_FACTOR < MIN_RELEVANCE) := by
        intro hlt
        simp [hA, hlt] at hkeep
      exact not_lt.mp hnot
    · rw [if_neg hA] at hfl
      subst hfl
      exact absurd ha hA
  · dsimp only [applyDecay]
    rw [List.filter_map, List.length_map]
    congr 1
    apply List.filter_congr
    intro x _
    by_cases hA : x.approved = 1
    · simp [hA, Function.comp]
    · have hb : (x.approved == 1) = false := by simp [hA]
      simp [Function.comp, hA, hb]
  · exact decay_keeps_unapproved s.learnings

/-- A concrete store for the decay witness: one approved learning at
relevance `1`, one approved learning at the `0.1` floor (pruned after one
decay), one unapproved learning. -/
def decayWitnessStore : MindStoreState :=
  { mindStore0 with
      learnings :=
        [{ id := 1, title := "a", content := "ca", rationale := "",
           relevance_score := 1, activation_count := 0, last_activated := 0,
           approved := 1, created_at := 0 },
         { id := 2, title := "b", content := "cb", rationale := "",
           relevance_score := 0.1, activation_count := 0, last_activated := 0,
           approved := 1, created_at := 0 },
         { id := 3, title := "c", content := "cc", rationale := "",
           relevance_score := 0.5, activation_count := 0, last_activated := 0,
           approved := 0, created_at := 0 }],
      nextLearningId := 4 }

/-- The approved learning of `decayWitnessStore` as it survives one decay. -/
def decaySurvivor : MindLearning :=
  { id := 1, title := "a", content := "ca", rationale := "",
    relevance_score := 0.95, activation_count := 0, last_activated := 0,
    approved := 1, created_at := 0 }

/-- C3 (witness): the contraction theorem applied to `decayWitnessStore`:
the survivor sits above the floor at `0.95` times its old relevance, and
exactly one learning (the one decayed to `0.095`) is pruned. -/
theorem applyDecay_contraction_witness :
    (MIN_RELEVANCE ≤ decaySurvivor.relevance_score
     ∧ ∃ l₀ ∈ decayWitnessStore.learnings, l₀.approved = 1 ∧
         decaySurvivor.relevance_score = l₀.relevance_score * DECAY_FACTOR)
    ∧ (applyDecay decayWitnessStore).2 = 1 :=
  ⟨(applyDecay_contraction decayWitnessStore).1 decaySurvivor
     (by norm_num [applyDecay, decayWitnessStore, decaySurvivor, DECAY_FACTOR, MIN_RELEVANCE])
     rfl,
   ((applyDecay_contraction decayWitnessStore).2.1).trans
     (by norm_num [decayWitnessStore, DECAY_FACTOR, MIN_RELEVANCE, List.filter])⟩

/-- C7: `rejectLearning` on the id of an existing learning appends exactly
one tombstone copying that learning's title and content and removes the
learning's row (all other tables untouched); on an id with no learning it
leaves the store unchanged. -/
theorem rejectLearning_tombstone_spec (s : MindStoreState) (id now : Int)
    (l : MindLearning) :
    (s.learnings.filter (fun x => x.id == id) = [l] →
       (rejectLearning s id now).rejected
           = s.rejected ++ [{ id := s.nextRejectedId, title := l.title,
                              content := l.content, rejected_at := now }]
       ∧ (rejectLearning s id now).learnings
           = s.learnings.filter (fun x => !(x.id == id))
       ∧ (rejectLearning s id now).learnings.length + 1 = s.learnings.length
       ∧ (rejectLearning s id now).logs = s.logs
       ∧ (rejectLearning s id now).actions = s.actions
       ∧ (rejectLearning s id now).dreams = s.dreams)
    ∧ ((∀ x ∈ s.learnings, ¬x.id = id) → rejectLearning s id now = s) := by
  constructor
  · intro h
    have hf : s.learnings.find? (fun x => x.id == id) = some l :=
      find_of_filter_singleton h
    have hlen : (s.learnings.filter (fun x => !(x.id == id))).length + 1
        = s.learnings.length := by
      have := filter_length_split (fun x : MindLearning => x.id == id) s.learnings
      rw [h] at this
      simp only [List.length_singleton] at this
      omega
    refine ⟨?_, ?_, ?_, ?_, ?_, ?_⟩ <;> simp [rejectLearning, hf, hlen]
  · intro hall
    have hf : s.learnings.find? (fun x => x.id == id) = none := by
      apply List.find?_eq_none.mpr
      intro x hx
      simpa using hall x hx
    have hid : s.learnings.filter (fun x => !(x.id == id)) = s.learnings := by
      apply List.filter_eq_self.mpr
      intro x hx
      simpa using hall x hx
    simp [rejectLearning, hf, hid]

/-- A one-learning store for the rejection witness. -/
def rejectWitnessStore : MindStoreState :=
  { mindStore0 with
      learnings :=
        [{ id := 1, title := "Be terse", content := "Keep replies short",
           rationale := "User repeatedly corrected verbosity",
           relevance_score := 1, activation_count := 0, last_activated := 0,
           approved := 0, created_at := 0 }],
      nextLearningId := 2 }

/-- C7 (witness): rejecting the existing learning of `rejectWitnessStore`
appends its tombstone and empties the learnings table; rejecting the
unknown id `2` changes nothing. -/
theorem rejectLearning_tombstone_spec_witness :
    (rejectLearning rejectWitnessStore 1 9).rejected
        = [{ id := 1, title := "Be terse", content := "Keep replies short",
             rejected_at := 9 }]
    ∧ (rejectLearning rejectWitnessStore 1 9).learnings = []
    ∧ rejectLearning rejectWitnessStore 2 9 = rejectWitnessStore := by
  have h1 := (rejectLearning_tombstone_spec rejectWitnessStore 1 9
    { id := 1, title := "Be terse", content := "Keep replies short",
      rationale := "User repeatedly corrected verbosity",
      relevance_score := 1, activation_count := 0, last_activated := 0,
      approved := 0, created_at := 0 }).1 (by decide)
  have h2 := (rejectLearning_tombstone_spec rejectWitnessStore 2 9
    { id := 1, title := "Be terse", content := "Keep replies short",
      rationale := "User repeatedly corrected verbosity",
      relevance_score := 1, activation_count := 0, last_activated := 0,
      approved := 0, created_at := 0 }).2 (by decide)
  refine ⟨h1.1.trans (by decide), h1.2.1.trans (by decide), h2⟩

/-- The relevance-bounds invariant: every learning's score is in `[0, 1]`. -/
def RelBounded (s : MindStoreState) : Prop :=
  ∀ l ∈ s.learnings, 0 ≤ l.relevance_score ∧ l.relevance_score ≤ 1

/-- Every learning-mutating store operation preserves the bounds:
insertion starts at `1.0`, activation caps at `1.0` via `MIN(1.0, ·)`,
decay multiplies by `0.95 ∈ [0, 1]`, approval and rejection do not touch
the score. -/
theorem relBounded_runOp {s : MindStoreState} (h : RelBounded s) (op : MindOp) :
    RelBounded (runOp s op) := by
  cases op with
  | addLearning t c r ap now =>
    intro l hl
    rcases List.mem_append.mp hl with hl | hl
    · exact h l hl
    · rcases List.mem_singleton.mp hl with rfl
      exact ⟨by norm_num, by norm_num⟩
  | approveLearning id =>
    intro l hl
    obtain ⟨l₀, hl₀, hfl⟩ := List.mem_map.mp hl
    by_cases hid : l₀.id = id
    · rw [if_pos hid] at hfl; subst hfl; exact h l₀ hl₀
    · rw [if_neg hid] at hfl; subst hfl; exact h l₀ hl₀
  | rejectLearning id now =>
    intro l hl
    dsimp only [runOp, rejectLearning] at hl
    have hl' := List.mem_filter.mp hl
    rcases hfind : s.learnings.find? (fun x => x.id == id) with - | found <;>
      rw [hfind] at hl'
    · exact h l hl'.1
    · exact h l hl'.1
  | activateLearning id now =>
    intro l hl
    obtain ⟨l₀, hl₀, hfl⟩ := List.mem_map.mp hl
    by_cases hid : l₀.id = id
    · rw [if_pos hid] at hfl
      subst hfl
      constructor
      · exact le_min (by norm_num)
          (add_nonneg (h l₀ hl₀).1 (by norm_num [REACTIVATION_BOOST]))
      · exact le_trans (min_le_left _ _) (by norm_num)
    · rw [if_neg hid] at hfl; subst hfl; exact h l₀ hl₀
  | applyDecay =>
    intro l hl
    dsimp only [runOp, applyDecay] at hl
    obtain ⟨hmem, -⟩ := List.mem_filter.mp hl
    obtain ⟨l₀, hl₀, hfl⟩ := List.mem_map.mp hmem
    by_cases hA : l₀.approved = 1
    · rw [if_pos hA] at hfl
      subst hfl
      refine ⟨mul_nonneg (h l₀ hl₀).1 (by norm_num [DECAY_FACTOR]), ?_⟩
      calc l₀.relevance_score * DECAY_FACTOR
          ≤ 1 * DECAY_FACTOR := by
            exact mul_le_mul_of_nonneg_right (h l₀ hl₀).2 (by norm_num [DECAY_FACTOR])
        _ ≤ 1 := by norm_num [DECAY_FACTOR]
    · rw [if_neg hA] at hfl; subst hfl; exact h l₀ hl₀

/-- The invariant propagates along any operation sequence. -/
theorem relBounded_runOps {s : MindStoreState} (h : RelBounded s) (ops : List MindOp) :
    RelBounded (runOps s ops) := by
  induction ops generalizing s with
  | nil => exact h
  | cons op rest ih => exact ih (relBounded_runOp h op)

/-- C5: after every sequence of learning-mutating store operations starting
from a fresh store, every learning's `relevance_score` lies in `[0, 1]`. -/
theorem relevance_bounds_invariant (ops : List MindOp) (l : MindLearning)
    (h : l ∈ (runOps mindStore0 ops).learnings) :
    0 ≤ l.relevance_score ∧ l.relevance_score ≤ 1 :=
  relBounded_runOps (fun _ hl => absurd hl (by simp [mindStore0])) ops l h

/-- The learning produced by adding an approved learning to a fresh store
and decaying once. -/
def decaySurvivorOps : MindLearning :=
  { id := 1, title := "t", content := "c", rationale := "r",
    relevance_score := 0.95, activation_count := 0, last_activated := 0,
    approved := 1, created_at := 0 }

/-- C5 (witness): the invariant applied after inserting an approved
learning and decaying once: the surviving row's score `0.95` is in
`[0, 1]`. -/
theorem relevance_bounds_invariant_witness :
    0 ≤ decaySurvivorOps.relevance_score ∧ decaySurvivorOps.relevance_score ≤ 1 :=
  relevance_bounds_invariant [.addLearning "t" "c" "r" true 0, .applyDecay]
    decaySurvivorOps
    (by norm_num [runOps, runOp, addLearning, applyDecay, mindStore0,
          decaySurvivorOps, DECAY_FACTOR, MIN_RELEVANCE])

set_option maxRecDepth 8192 in
/-- C6: the principle block rendered into the Spiritual Biology prompt
section (line index 3 of the section) is the fixed rendering of the five
compile-time `IMMUTABLE_PRINCIPLES` — bit for bit, for every store state,
session key, cache state and clock; no Store data enters it. -/
theorem principles_immutable_in_prompt (store : MindStoreState)
    (sessionKey : Option String) (cache : Option LearningsCache) (now : Int) :
    (buildMindPromptSection store sessionKey cache now).1[3]?
        = some renderedPrinciples
    ∧ renderedPrinciples
        = "1. **System Stability**: Never execute commands that could lead to system instability, such as recursive deletions of system folders, infinite loops, or operations that exhaust system resources.\n2. **Transparency & Consent**: Always state your intention before running potentially destructive or complex operations. If an action is risky, explain the risk.\n3. **Data Privacy**: Do not share or exfiltrate private data from the host system to external endpoints unless explicitly requested for a specific task.\n4. **Proactive Problem Solving**: When a tool fails or an error occurs, analyze why and suggest a fix or try an alternative approach. Do not just report the error and wait.\n5. **No Damage**: The host system is your home. Guard it. Avoid modifying critical configuration files unless you are certain of the changes and have backed them up."
    ∧ IMMUTABLE_PRINCIPLES.map Principle.name
        = ["System Stability", "Transparency & Consent", "Data Privacy",
           "Proactive Problem Solving", "No Damage"] := by
  refine ⟨?_, rfl, rfl⟩
  dsimp only [buildMindPromptSection]
  split
  · rw [List.append_assoc, List.getElem?_append_left (by simp)]
    rfl
  · rw [List.getElem?_append_left (by simp)]
    rfl

/-- A sum of squares is non-negative. -/
theorem sumSquares_nonneg (a : List ℝ) : 0 ≤ sumSquares a := by
  apply List.sum_nonneg
  intro x hx
  obtain ⟨y, -, rfl⟩ := List.mem_map.mp hx
  exact mul_self_nonneg y

/-- A vanishing sum of squares forces every component to vanish. -/
theorem sumSquares_eq_zero {a : List ℝ} (h : sumSquares a = 0) : ∀ x ∈ a, x = 0 := by
  induction a with
  | nil => intro x hx; simp at hx
  | cons y t ih =>
    have hy : 0 ≤ y * y := mul_self_nonneg y
    have ht : 0 ≤ sumSquares t := sumSquares_nonneg t
    have hsum : y * y + sumSquares t = 0 := by simpa [sumSquares] using h
    have hy0 : y * y = 0 := by linarith
    have ht0 : sumSquares t = 0 := by linarith
    intro x hx
    rcases List.mem_cons.mp hx with rfl | hx
    · exact mul_self_eq_zero.mp hy0
    · exact ih ht0 x hx

/-- The dot product vanishes when the left vector is all zeros. -/
theorem dotProduct_zero_left {a : List ℝ} (b : List ℝ) (h : ∀ x ∈ a, x = 0) :
    dotProduct a b = 0 := by
  induction a generalizing b with
  | nil => simp [dotProduct]
  | cons y t ih =>
    cases b with
    | nil => simp [dotProduct]
    | cons z u =>
      have hy : y = 0 := h y (List.mem_cons_self y t)
      have := ih u fun x hx => h x (List.mem_cons_of_mem y hx)
      simp only [dotProduct, List.zipWith_cons_cons, List.sum_cons] at *
      rw [hy, this]
      ring

/-- The dot product vanishes when the right vector is all zeros. -/
theorem dotProduct_zero_right (a : List ℝ) {b : List ℝ} (h : ∀ x ∈ b, x = 0) :
    dotProduct a b = 0 := by
  induction a generalizing b with
  | nil => simp [dotProduct]
  | cons y t ih =>
    cases b with
    | nil => simp [dotProduct]
    | cons z u =>
      have hz : z = 0 := h z (List.mem_cons_self z u)
      have := ih fun x hx => h x (List.mem_cons_of_mem z hx)
      simp only [dotProduct, List.zipWith_cons_cons, List.sum_cons] at *
      rw [hz, this]
      ring

/-- C9 (counterexample): the `|| 1` guard is not a floor at `1`.  For
`a = b = [1/2]` the computed denominator is `sqrt(1/4)·sqrt(1/4) = 1/4`
(non-zero, hence kept, though below `1`), so `cosineSimilarity` returns
`1`, while the spec's floored denominator `max(sqrt(1/16), 1) = 1` would
return `1/4`. -/
theorem cosineSimilarity_floor_counterexample :
    cosineSimilarity [(1 : ℝ)/2] [(1 : ℝ)/2] = 1
    ∧ cosineSimilaritySpec [(1 : ℝ)/2] [(1 : ℝ)/2] = 1/4
    ∧ (1 : ℝ) ≠ 1/4 := by
  have hss : sumSquares [(1 : ℝ)/2] = 1/4 := by
    simp [sumSquares]
    norm_num
  have hsq : Real.sqrt ((1 : ℝ)/4) = 1/2 := by
    rw [show (1 : ℝ)/4 = (1/2)^2 by norm_num]
    exact Real.sqrt_sq (by norm_num)
  have hsq16 : Real.sqrt ((1 : ℝ)/4 * (1/4)) = 1/4 := by
    rw [show (1 : ℝ)/4 * (1/4) = (1/4)^2 by norm_num]
    exact Real.sqrt_sq (by norm_num)
  have hdot : dotProduct [(1 : ℝ)/2] [(1 : ℝ)/2] = 1/4 := by
    simp [dotProduct]
    norm_num
  refine ⟨?_, ?_, by norm_num⟩
  · rw [cosineSimilarity, if_neg (by simp)]
    rw [hdot, hss, hsq, jsOrReal, if_neg (by norm_num)]
    norm_num
  · rw [cosineSimilaritySpec, if_neg (by simp)]
    rw [hdot, hss, hsq16]
    rw [max_eq_right (by norm_num)]
    norm_num

/-- C9 (amended): `cosineSimilarity` returns `0` on length mismatch; on
equal lengths its denominator is `sqrt(normA)·sqrt(normB)` whenever that
product is non-zero (even when it is below `1`), and only a zero product
is replaced by `1` — in which case the dot product itself is zero and the
function returns `0`. -/
theorem cosineSimilarity_denominator_spec (a b : List ℝ) :
    (a.length ≠ b.length → cosineSimilarity a b = 0)
    ∧ (a.length = b.length →
         Real.sqrt (sumSquares a) * Real.sqrt (sumSquares b) ≠ 0 →
         cosineSimilarity a b
           = dotProduct a b / (Real.sqrt (sumSquares a) * Real.sqrt (sumSquares b)))
    ∧ (a.length = b.length →
         Real.sqrt (sumSquares a) * Real.sqrt (sumSquares b) = 0 →
         cosineSimilarity a b = 0) := by
  refine ⟨?_, ?_, ?_⟩
  · intro h
    rw [cosineSimilarity, if_pos h]
  · intro h hne
    rw [cosineSimilarity, if_neg (by simp [h]), jsOrReal, if_neg hne]
  · intro h h0
    have hzero : sumSquares a = 0 ∨ sumSquares b = 0 := by
      rcases mul_eq_zero.mp h0 with h' | h'
      · exact Or.inl (le_antisymm (Real.sqrt_eq_zero'.mp h') (sumSquares_nonneg a))
      · exact Or.inr (le_antisymm (Real.sqrt_eq_zero'.mp h') (sumSquares_nonneg b))
    have hdot : dotProduct a b = 0 := by
      rcases hzero with h' | h'
      · exact dotProduct_zero_left b (sumSquares_eq_zero h')
      · exact dotProduct_zero_right a (sumSquares_eq_zero h')
    rw [cosineSimilarity, if_neg (by simp [h]), jsOrReal, if_pos h0, hdot]
    norm_num

/-- C9 (witness): the amended denominator behaviour at concrete inputs:
a length mismatch yields `0`; `[1/2]` against itself divides by the
sub-unit product `sqrt(1/4)·sqrt(1/4)`; `[0]` against `[5]` has a zero
product and yields `0`. -/
theorem cosineSimilarity_denominator_spec_witness :
    cosineSimilarity [(1 : ℝ)] [] = 0
    ∧ cosineSimilarity [(1 : ℝ)/2] [(1 : ℝ)/2]
        = dotProduct [(1 : ℝ)/2] [(1 : ℝ)/2]
            / (Real.sqrt (sumSquares [(1 : ℝ)/2]) * Real.sqrt (sumSquares [(1 : ℝ)/2]))
    ∧ cosineSimilarity [(0 : ℝ)] [(5 : ℝ)] = 0 := by
  refine ⟨(cosineSimilarity_denominator_spec [(1 : ℝ)] []).1 (by simp),
          (cosineSimilarity_denominator_spec [(1 : ℝ)/2] [(1 : ℝ)/2]).2.1 rfl ?_,
          (cosineSimilarity_denominator_spec [(0 : ℝ)] [(5 : ℝ)]).2.2 rfl ?_⟩
  · have hss : sumSquares [(1 : ℝ)/2] = 1/4 := by
      simp [sumSquares]
      norm_num
    rw [hss, show Real.sqrt ((1 : ℝ)/4) = 1/2 by
      rw [show (1 : ℝ)/4 = (1/2)^2 by norm_num]
      exact Real.sqrt_sq (by norm_num)]
    norm_num
  · have hss0 : sumSquares [(0 : ℝ)] = 0 := by simp [sumSquares]
    rw [hss0, Real.sqrt_zero, zero_mul]

/-- A case-insensitive literal always consumes text whose lowercasing is
the literal. -/
theorem litMatch_toLower (mid rest : List Char) :
    litMatch (mid.map Char.toLower) (mid ++ rest) = some rest := by
  induction mid with
  | nil => rfl
  | cons c t ih => simp [litMatch, ih]

/-- C10: any text containing `actually` (in any letter case) followed by a
comma or whitespace character trips the regex stage — pattern 2 is
`/actually[,\s]+/i` — so `detectStress` answers
`{detected: true, intensity: 3, method: "regex"}` for every embedding
callable, provider key and cache, leaving the cache untouched (the
embedding path is never consulted). -/
theorem actually_pattern_short_circuits (pre mid post : List Char) (c : Char)
    (hmid : mid.map Char.toLower = "actually".toList)
    (hc : c = ',' ∨ isJsSpace c = true) :
    detectStressRegex (String.mk (pre ++ (mid ++ c :: post))) = true
    ∧ ∀ (emb : EmbeddingFn) (pk : Option String) (cache : SemCache),
        detectStress (String.mk (pre ++ (mid ++ c :: post))) (some emb) pk cache
          = ({ detected := true, intensity := 3, method := "regex" }, cache) := by
  have hcs : isCommaOrSpace c = true := by
    rcases hc with rfl | h
    · simp [isCommaOrSpace]
    · simp [isCommaOrSpace, h]
  have hlit : litMatch "actually".toList (mid ++ (c :: post)) = some (c :: post) := by
    rw [← hmid]
    exact litMatch_toLower mid (c :: post)
  have hmatch : (stressPat2.matches (mid ++ c :: post)).isEmpty = false := by
    have hlit' :
        litMatch ['a', 'c', 't', 'u', 'a', 'l', 'l', 'y'] (mid ++ c :: post)
          = some (c :: post) := hlit
    simp [stressPat2, reCat, reLit, RE.matches, hlit', cls1Matches, hcs, litMatch]
  have hTest : reTest stressPat2 (String.mk (pre ++ (mid ++ c :: post))).toList = true := by
    simp only [reTest]
    apply List.any_eq_true.mpr
    refine ⟨mid ++ c :: post, ?_, by simp [hmatch]⟩
    exact (List.mem_tails _ _).mpr (List.suffix_append pre _)
  have hreg : detectStressRegex (String.mk (pre ++ (mid ++ c :: post))) = true := by
    simp only [detectStressRegex]
    apply List.any_eq_true.mpr
    exact ⟨stressPat2, by simp [STRESS_PATTERNS], hTest⟩
  refine ⟨hreg, ?_⟩
  intro emb pk cache
  simp [detectStress, hreg]

/-- C10 (witness): the short-circuit theorem at the clearly positive
message `"Actually, that sounds great!"` with an embedding callable that
would fail if consulted. -/
theorem actually_pattern_short_circuits_witness :
    detectStressRegex "Actually, that sounds great!" = true
    ∧ detectStress "Actually, that sounds great!" (some fun _ => Option.none)
        Option.none semCache0
        = ({ detected := true, intensity := 3, method := "regex" }, semCache0) := by
  have h := actually_pattern_short_circuits [] ("Actually".toList)
    (" that sounds great!".toList) ',' (by decide) (Or.inl rfl)
  have hstr : String.mk ([] ++ ("Actually".toList ++ ',' :: " that sounds great!".toList))
      = "Actually, that sounds great!" := by decide
  rw [← hstr]
  exact ⟨h.1, h.2 (fun _ => Option.none) Option.none semCache0⟩
